import Mathlib

/-!
Verification development for the Developer Journey subsystem of the
marketing-operations dashboard (single source file src/index.tsx).

The definitions below are a shallow embedding of the TypeScript source:
pure computations become Lean functions, the stateful handlers become
explicit functions from their inputs (configuration flag, current UI
state, gateway response) to a record of their observable effects
(alert messages, gateway writes, whether a refetch was triggered).
JavaScript numbers that only ever hold integral values are modelled as
Int; machine-level floating point does not occur in the verified paths.
-/

namespace Mcc

/-! ## Data model (types from src/index.tsx lines 30-104) -/

structure DeveloperPersona where
  id : String
  name : String
  role : Option String := none
  description : Option String := none
deriving DecidableEq

structure PainPoint where
  id : String
  step_id : String
  description : String
  severity : Option String := none
deriving DecidableEq

structure MarketingTouchpoint where
  id : String
  step_id : String
  title : String
  description : Option String := none
  content_url : Option String := none
  touchpoint_type : String
deriving DecidableEq

structure JourneyMetric where
  id : String
  step_id : String
  metric_name : String
  metric_goal : Option Int := none
  measurement_type : String
deriving DecidableEq

structure JourneyAudit where
  id : String
  step_id : String
  change_description : String
  changed_by : String
  created_at : String
deriving DecidableEq

structure JourneyStep where
  id : String
  stage_id : String
  user_action : String
  user_goal : String
  personas : List DeveloperPersona
  pain_points : List PainPoint
  touchpoints : List MarketingTouchpoint
  metrics : List JourneyMetric
  audits : List JourneyAudit := []
deriving DecidableEq

structure JourneyStage where
  id : String
  name : String
  stage_order : Int
  steps : List JourneyStep
deriving DecidableEq

/-! ## Deadline classification (getDeadlineInfo, src/index.tsx lines 887-911)

The JavaScript computes
  today            -- current local date with time-of-day zeroed
  parts            = deadline.split('-').map(p => parseInt(p, 10))
  deadlineDate     = new Date(Date.UTC(parts[0], parts[1] - 1, parts[2]))
  diffDays         = Math.ceil((deadlineDate - today) / 86400000)
and classifies on diffDays.  We model the current date by its epoch
timestamp in milliseconds (todayMs); calendar arithmetic of Date.UTC is
embedded with the standard civil-calendar conversion. -/

def msPerDay : Int := 1000 * 60 * 60 * 24

/-- Days since 1970-01-01 of the civil date (y, m, d) with m in 1..12;
the day component may lie outside its usual range, extra days roll over
linearly exactly as in the ECMAScript MakeDay specification. -/
def daysFromCivil (y m d : Int) : Int :=
  let yy := if m ≤ 2 then y - 1 else y
  let era := Int.fdiv yy 400
  let yoe := yy - era * 400
  let doy := Int.fdiv (153 * (if m > 2 then m - 3 else m + 9) + 2) 5 + d - 1
  let doe := yoe * 365 + Int.fdiv yoe 4 - Int.fdiv yoe 100 + doy
  era * 146097 + doe - 719468

/-- Inverse of daysFromCivil: the civil date of a day count. -/
def civilFromDays (z0 : Int) : Int × Int × Int :=
  let z := z0 + 719468
  let era := Int.fdiv z 146097
  let doe := z - era * 146097
  let yoe := Int.fdiv (doe - Int.fdiv doe 1460 + Int.fdiv doe 36524 - Int.fdiv doe 146096) 365
  let y := yoe + era * 400
  let doy := doe - (365 * yoe + Int.fdiv yoe 4 - Int.fdiv yoe 100)
  let mp := Int.fdiv (5 * doy + 2) 153
  let d := doy - Int.fdiv (153 * mp + 2) 5 + 1
  let m := if mp < 10 then mp + 3 else mp - 9
  (if m ≤ 2 then y + 1 else y, m, d)

/-- Date.UTC(year, monthIndex, day) in epoch milliseconds, including the
ECMAScript rules that a year in 0..99 means 1900+year and that an
out-of-range month index rolls over into adjacent years. -/
def dateUTC (y monthIndex d : Int) : Int :=
  let fullYear := if 0 ≤ y ∧ y ≤ 99 then 1900 + y else y
  let ny := fullYear + Int.fdiv monthIndex 12
  let nm := Int.emod monthIndex 12 + 1
  daysFromCivil ny nm d * msPerDay

/-- Math.ceil(a / b) for integer a and positive integer b. -/
def ceilDivInt (a b : Int) : Int := -(Int.fdiv (-a) b)

/-- JavaScript String.prototype.split with separator "-". -/
def splitOnDash : List Char → List (List Char)
  | [] => [[]]
  | c :: rest =>
    if c = '-' then [] :: splitOnDash rest
    else
      match splitOnDash rest with
      | h :: t => (c :: h) :: t
      | [] => [[c]]

/-- Digit run at the front of the input, as a number; none when the input
does not start with a digit (the parseInt NaN case). -/
def parseDigits (l : List Char) : Option Nat :=
  let ds := l.takeWhile Char.isDigit
  if ds.isEmpty then none
  else some (ds.foldl (fun a c => a * 10 + (c.toNat - 48)) 0)

/-- JavaScript parseInt(p, 10): optional leading spaces and sign, then a
digit run; NaN (modelled as none) when no digit is found. -/
def parseIntChars (l : List Char) : Option Int :=
  let l1 := l.dropWhile (fun c => c = ' ')
  match l1 with
  | '-' :: r => (parseDigits r).map (fun n => -(n : Int))
  | '+' :: r => (parseDigits r).map (fun n => (n : Int))
  | r => (parseDigits r).map (fun n => (n : Int))

/-- deadline.split('-').map(p => parseInt(p, 10)) followed by reading
parts[0], parts[1], parts[2]; none when any of the three is NaN or
missing (which in the source propagates to an invalid Date). -/
def parseDateParts (s : String) : Option (Int × Int × Int) :=
  let parts := (splitOnDash s.data).map parseIntChars
  match parts.get? 0, parts.get? 1, parts.get? 2 with
  | some (some y), some (some m), some (some d) => some (y, m, d)
  | _, _, _ => none

structure DeadlineInfo where
  text : String
  className : String
deriving DecidableEq

/-- toLocaleDateString(undefined, numeric year / short month / numeric
day, timeZone UTC); the short month names of the en-US default locale
are assumed. -/
def formatDateUTC (ms : Int) : String :=
  let monthShort : Int → String := fun m =>
    if m = 1 then "Jan" else if m = 2 then "Feb" else if m = 3 then "Mar"
    else if m = 4 then "Apr" else if m = 5 then "May" else if m = 6 then "Jun"
    else if m = 7 then "Jul" else if m = 8 then "Aug" else if m = 9 then "Sep"
    else if m = 10 then "Oct" else if m = 11 then "Nov" else "Dec"
  match civilFromDays (Int.fdiv ms msPerDay) with
  | (y, m, d) => monthShort m ++ " " ++ toString d ++ ", " ++ toString y

/-- getDeadlineInfo (src/index.tsx lines 887-911).  When the deadline
string does not parse to three numbers every comparison against the NaN
diffDays is false in JavaScript and the function falls through to the
formatted date, which an invalid Date renders as "Invalid Date". -/
def getDeadlineInfo (todayMs : Int) (deadline : String) : DeadlineInfo :=
  if deadline = "" then { text := "N/A", className := "text-muted-foreground" }
  else
    match parseDateParts deadline with
    | none => { text := "Invalid Date", className := "text-muted-foreground" }
    | some (y, m, d) =>
      let deadlineMs := dateUTC y (m - 1) d
      let diffTime := deadlineMs - todayMs
      let diffDays := ceilDivInt diffTime msPerDay
      let formattedDate := formatDateUTC deadlineMs
      if diffDays < 0 then { text := "Overdue", className := "text-red-500 font-medium" }
      else if diffDays = 0 then { text := "Due Today!", className := "text-orange-500 font-bold" }
      else if diffDays ≤ 7 then
        { text := "In " ++ toString diffDays ++ " day" ++ (if diffDays > 1 then "s" else ""),
          className := "text-amber-500 font-medium" }
      else { text := formattedDate, className := "text-muted-foreground" }

/-! ## CSV export (convertToCSV and handleExportPainPoints,
src/index.tsx lines 1465-1515)

A cell value read off a row object is a string, a number, or absent
(undefined).  The source first applies `row[h.key] || ''` and then wraps
the value in double quotes exactly when it is a string. -/

inductive JSVal where
  | str : String → JSVal
  | num : Int → JSVal
  | undefined : JSVal
deriving DecidableEq

/-- The defaulting step `val = row[h.key] || ''`: the falsy values among
our cell values (the empty string, the number 0 and undefined) are
replaced by the empty string. -/
def jsOrEmpty (v : JSVal) : JSVal :=
  match v with
  | .str s => if s = "" then .str "" else .str s
  | .num n => if n = 0 then .str "" else .num n
  | .undefined => .str ""

/-- val.replace of every double quote by two double quotes, on the
character list. -/
def escChars : List Char → List Char
  | [] => []
  | c :: cs => if c = '"' then '"' :: '"' :: escChars cs else c :: escChars cs

def escapeQuotes (s : String) : String := String.mk (escChars s.data)

/-- One emitted CSV cell: strings are wrapped in double quotes with
internal double quotes doubled, anything else is printed bare.  (After
jsOrEmpty the undefined case cannot occur.) -/
def csvCell (v : JSVal) : String :=
  match jsOrEmpty v with
  | .str s => "\"" ++ escapeQuotes s ++ "\""
  | .num n => toString n
  | .undefined => ""

/-- JavaScript Array.prototype.join. -/
def joinStrings (sep : String) : List String → String
  | [] => ""
  | [x] => x
  | x :: xs => x ++ sep ++ joinStrings sep xs

structure CSVHeader where
  key : String
  label : String
deriving DecidableEq

/-- convertToCSV (src/index.tsx lines 1465-1477); a row object is
modelled by its lookup function from column key to cell value. -/
def convertToCSV (data : List (String → JSVal)) (headers : List CSVHeader) : String :=
  let headerRow := joinStrings "," (headers.map (fun h => h.label))
  let bodyRows := data.map (fun row => joinStrings "," (headers.map (fun h => csvCell (row h.key))))
  joinStrings "\n" (headerRow :: bodyRows)

/-- A pain point annotated by the report flattening with its parent
Step user_action and Stage name ({...pp, stepAction, stageName}). -/
structure AnnotatedPainPoint where
  pp : PainPoint
  stepAction : String
  stageName : String
deriving DecidableEq

/-- Reading the pain-point export columns off an annotated pain point;
an absent optional severity is undefined, any other key is not present
on the row object. -/
def ppRowLookup (p : AnnotatedPainPoint) : String → JSVal := fun k =>
  if k = "description" then .str p.pp.description
  else if k = "severity" then
    match p.pp.severity with
    | some s => .str s
    | none => .undefined
  else if k = "stageName" then .str p.stageName
  else if k = "stepAction" then .str p.stepAction
  else .undefined

/-- The fixed column spec of handleExportPainPoints
(src/index.tsx lines 1493-1498). -/
def painPointHeaders : List CSVHeader :=
  [⟨"description", "Description"⟩, ⟨"severity", "Severity"⟩,
   ⟨"stageName", "Stage"⟩, ⟨"stepAction", "User Action"⟩]

/-- handleExportPainPoints (src/index.tsx lines 1491-1501), the CSV
string it downloads. -/
def handleExportPainPoints (painPoints : List AnnotatedPainPoint) : String :=
  convertToCSV (painPoints.map ppRowLookup) painPointHeaders

/-- The single data row emitted for one annotated pain point. -/
def ppDataRow (p : AnnotatedPainPoint) : String :=
  joinStrings "," (painPointHeaders.map (fun h => csvCell (ppRowLookup p h.key)))

/-! ### A standard CSV record parser (for the round-trip property)

parseRecord reads one record: fields separated by commas, a field being
either a double-quoted body in which two consecutive double quotes
denote one literal double quote, or a bare run of characters up to the
next comma. -/

/-- Parse the body of a quoted field, after the opening double quote;
returns the field content and the input after the closing quote. -/
def parseQuotedBody : List Char → Option (List Char × List Char)
  | [] => none
  | c :: rest =>
    if c = '"' then
      match rest with
      | r2 :: rest2 =>
        if r2 = '"' then
          match parseQuotedBody rest2 with
          | some (f, r) => some ('"' :: f, r)
          | none => none
        else some ([], rest)
      | [] => some ([], [])
    else
      match parseQuotedBody rest with
      | some (f, r) => some (c :: f, r)
      | none => none

/-- Parse one field: quoted when it starts with a double quote, bare up
to the next comma otherwise. -/
def parseField (l : List Char) : Option (List Char × List Char) :=
  match l with
  | [] => some ([], [])
  | c :: rest =>
    if c = '"' then parseQuotedBody rest
    else some (l.takeWhile (fun x => x != ','), l.dropWhile (fun x => x != ','))

/-- Parse a comma-separated record (fuelled by an upper bound on the
number of fields). -/
def parseRecordAux : Nat → List Char → Option (List (List Char))
  | 0, _ => none
  | Nat.succ fuel, l =>
    match parseField l with
    | none => none
    | some (f, r) =>
      match r with
      | [] => some [f]
      | c :: r2 =>
        if c = ',' then
          match parseRecordAux fuel r2 with
          | some fs => some (f :: fs)
          | none => none
        else none

def parseRecord (l : List Char) : Option (List (List Char)) :=
  parseRecordAux (l.length + 1) l

/-- The quoted encoding of one field, as emitted by csvCell on strings. -/
def quoteField (f : List Char) : List Char := '"' :: (escChars f ++ ['"'])

/-- A full record of quoted fields joined by commas. -/
def encodeRow : List (List Char) → List Char
  | [] => []
  | [f] => quoteField f
  | f :: fs => quoteField f ++ ',' :: encodeRow fs

/-! ## Report derivations (JourneyReportModal, src/index.tsx lines
1415-1459) -/

structure PersonaSummaryEntry where
  stageName : String
  count : Nat
deriving DecidableEq

/-- Per-stage distinct persona count: the size of
new Set(stage.steps.flatMap(step => step.personas.map(p => p.id)))
(src/index.tsx lines 1424-1427).  The size of a JavaScript Set built
from a list is the number of distinct elements, i.e. the length of the
deduplicated list. -/
def personaSummary (relevantStages : List JourneyStage) : List PersonaSummaryEntry :=
  relevantStages.map (fun stage =>
    ⟨stage.name, ((stage.steps.flatMap (fun step => step.personas.map (fun p => p.id))).dedup).length⟩)

/-- The flattening of all pain points in scope, each annotated with
its parent Step user_action and Stage name (src/index.tsx lines
1422 and 1429). -/
def collectPainPoints (relevantStages : List JourneyStage) : List AnnotatedPainPoint :=
  (relevantStages.flatMap (fun s => s.steps.map (fun step => (step, s.name)))).flatMap
    (fun x => x.1.pain_points.map (fun pp => ⟨pp, x.1.user_action, x.2⟩))

/-- The grouping key `pp.severity || 'none'`: an absent severity, and
the falsy empty string, fall into the none bucket. -/
def severityKey (pp : PainPoint) : String :=
  match pp.severity with
  | some s => if s = "" then "none" else s
  | none => "none"

/-- painPointSummary.total (src/index.tsx line 1432). -/
def painPointSummaryTotal (painPoints : List AnnotatedPainPoint) : Nat :=
  painPoints.length

/-- painPointSummary.bySeverity (src/index.tsx lines 1433-1437): the
reduce building the severity histogram, the accumulator object modelled
as a function from key to count (missing key = 0). -/
def painPointSummaryBySeverity (painPoints : List AnnotatedPainPoint) : String → Nat :=
  painPoints.foldl
    (fun acc pp => fun k => if k = severityKey pp.pp then acc k + 1 else acc k)
    (fun _ => 0)

/-! ## Journey mutation operations

Each handler in the source checks the supabase client, performs at most
one gateway write, on error raises an alert naming the operation, and on
success triggers the full refetch (onDataUpdate / onPersonaUpdate).  A
handler is embedded as a function from its inputs - the configuration
flag, its arguments, the confirmation answer where the source asks for
one, and the gateway response for the attempted write - to the record
of its observable effects.  The in-memory stage tree and persona list
are only ever replaced by the refetch, so refetch = false together with
writes = [] means both are left untouched.  UI-local editor state is
outside this model. -/

structure PainPointUpsert where
  id : Option String := none
  step_id : String
  description : String
  severity : Option String := none
deriving DecidableEq

structure TouchpointUpsert where
  id : Option String := none
  step_id : String
  title : String
  description : Option String := none
  content_url : Option String := none
  touchpoint_type : String
deriving DecidableEq

structure MetricUpsert where
  id : Option String := none
  step_id : String
  metric_name : String
  metric_goal : Option Int := none
  measurement_type : String
deriving DecidableEq

structure PersonaUpsert where
  id : Option String := none
  name : String
  role : Option String := none
  description : Option String := none
deriving DecidableEq

inductive GatewayWrite where
  | insertStage (name : String) (stage_order : Int)
  | deleteStageById (id : String)
  | updateStageField (field value id : String)
  | updateStepField (field value id : String)
  | insertStep (stage_id user_action user_goal : String)
  | deleteStepById (id : String)
  | upsertPainPoint (p : PainPointUpsert)
  | deletePainPointById (id : String)
  | upsertTouchpoint (t : TouchpointUpsert)
  | deleteTouchpointById (id : String)
  | upsertMetric (m : MetricUpsert)
  | deleteMetricById (id : String)
  | insertPersonaStep (persona_id step_id : String)
  | deletePersonaStepMatch (persona_id step_id : String)
  | upsertPersona (p : PersonaUpsert)
  | deletePersonaById (id : String)
deriving DecidableEq

structure OpResult where
  alerts : List String
  writes : List GatewayWrite
  refetch : Bool
deriving DecidableEq

def notConfiguredMsg : String := "Database connection is not configured."

def abortUnconfigured : OpResult := ⟨[notConfiguredMsg], [], false⟩

/-- Outcome of one attempted write: on gateway error an alert built from
the given message prefix, otherwise the refetch. -/
def writeOutcome (w : GatewayWrite) (failMsg : String) (gwError : Option String) : OpResult :=
  match gwError with
  | some msg => ⟨[failMsg ++ msg], [w], false⟩
  | none => ⟨[], [w], true⟩

namespace DeveloperJourney

inductive EditType where
  | stage
  | step
deriving DecidableEq

def EditType.str : EditType → String
  | .stage => "stage"
  | .step => "step"

structure EditingState where
  type : EditType
  id : String
  field : String
deriving DecidableEq

/-- handleSave for inline stage/step text edits (src/index.tsx lines
1663-1686). -/
def handleSave (supabase : Bool) (editing : Option EditingState) (editValue : String)
    (gwError : Option String) : OpResult :=
  if !supabase then abortUnconfigured
  else
    match editing with
    | none => ⟨[], [], false⟩
    | some e =>
      let w := match e.type with
        | .stage => GatewayWrite.updateStageField e.field editValue e.id
        | .step => GatewayWrite.updateStepField e.field editValue e.id
      writeOutcome w ("Failed to update " ++ e.type.str ++ ": ") gwError

/-- addStage (src/index.tsx lines 1700-1708). -/
def addStage (supabase : Bool) (stagesLen : Nat) (gwError : Option String) : OpResult :=
  if !supabase then abortUnconfigured
  else writeOutcome (.insertStage "New Stage" (stagesLen + 1)) "Failed to add stage: " gwError

/-- deleteStage (src/index.tsx lines 1710-1720). -/
def deleteStage (supabase : Bool) (confirmed : Bool) (stageId : String)
    (gwError : Option String) : OpResult :=
  if !supabase then abortUnconfigured
  else if confirmed then
    writeOutcome (.deleteStageById stageId) "Failed to delete stage: " gwError
  else ⟨[], [], false⟩

/-- addStep (src/index.tsx lines 1722-1734). -/
def addStep (supabase : Bool) (stageId : String) (gwError : Option String) : OpResult :=
  if !supabase then abortUnconfigured
  else writeOutcome (.insertStep stageId "New User Action" "New User Goal")
    "Failed to add step: " gwError

/-- deleteStep (src/index.tsx lines 1736-1746). -/
def deleteStep (supabase : Bool) (confirmed : Bool) (stepId : String)
    (gwError : Option String) : OpResult :=
  if !supabase then abortUnconfigured
  else if confirmed then
    writeOutcome (.deleteStepById stepId) "Failed to delete step: " gwError
  else ⟨[], [], false⟩

/-- handleSavePainPoint (src/index.tsx lines 1803-1814). -/
def handleSavePainPoint (supabase : Bool) (painPointData : PainPointUpsert)
    (gwError : Option String) : OpResult :=
  if !supabase then abortUnconfigured
  else writeOutcome (.upsertPainPoint painPointData) "Failed to save pain point: " gwError

/-- handleDeletePainPoint (src/index.tsx lines 1816-1824). -/
def handleDeletePainPoint (supabase : Bool) (painPointId : String)
    (gwError : Option String) : OpResult :=
  if !supabase then abortUnconfigured
  else writeOutcome (.deletePainPointById painPointId) "Failed to delete pain point: " gwError

/-- handleSaveTouchpoint (src/index.tsx lines 1865-1876). -/
def handleSaveTouchpoint (supabase : Bool) (touchpointData : TouchpointUpsert)
    (gwError : Option String) : OpResult :=
  if !supabase then abortUnconfigured
  else writeOutcome (.upsertTouchpoint touchpointData) "Failed to save touchpoint: " gwError

/-- handleDeleteTouchpoint (src/index.tsx lines 1878-1886). -/
def handleDeleteTouchpoint (supabase : Bool) (touchpointId : String)
    (gwError : Option String) : OpResult :=
  if !supabase then abortUnconfigured
  else writeOutcome (.deleteTouchpointById touchpointId) "Failed to delete touchpoint: " gwError

/-- handleSaveMetric (src/index.tsx lines 1944-1955). -/
def handleSaveMetric (supabase : Bool) (metricData : MetricUpsert)
    (gwError : Option String) : OpResult :=
  if !supabase then abortUnconfigured
  else writeOutcome (.upsertMetric metricData) "Failed to save metric: " gwError

/-- handleDeleteMetric (src/index.tsx lines 1957-1965). -/
def handleDeleteMetric (supabase : Bool) (metricId : String)
    (gwError : Option String) : OpResult :=
  if !supabase then abortUnconfigured
  else writeOutcome (.deleteMetricById metricId) "Failed to delete metric: " gwError

/-- togglePersonaForStep (src/index.tsx lines 1888-1904).  The key point
is the second line of the source:
  isSelected = activeStepForPersona?.personas.some(p => p.id === persona.id)
the membership test runs over the personas of the popover state
activeStepForPersona, not over the step identified by the stepId
argument, and optional chaining yields a falsy result when
activeStepForPersona is null. -/
def togglePersonaForStep (supabase : Bool) (activeStepForPersona : Option JourneyStep)
    (stepId : String) (persona : DeveloperPersona) (gwError : Option String) : OpResult :=
  if !supabase then abortUnconfigured
  else
    let isSelected := match activeStepForPersona with
      | some st => st.personas.any (fun p => p.id = persona.id)
      | none => false
    if isSelected then
      writeOutcome (.deletePersonaStepMatch persona.id stepId) "Failed to remove persona: " gwError
    else
      writeOutcome (.insertPersonaStep persona.id stepId) "Failed to add persona: " gwError

end DeveloperJourney

namespace PersonaManagerModal

/-- handleSave of the persona manager (src/index.tsx lines 1119-1141). -/
def handleSave (supabase : Bool) (formData : PersonaUpsert) (gwError : Option String) : OpResult :=
  if !supabase then abortUnconfigured
  else if (formData.name.trim = "") then ⟨["Persona name cannot be empty."], [], false⟩
  else writeOutcome (.upsertPersona formData) "Failed to save persona: " gwError

/-- handleDelete of the persona manager (src/index.tsx lines 1143-1156). -/
def handleDelete (supabase : Bool) (confirmed : Bool) (id : String)
    (gwError : Option String) : OpResult :=
  if !supabase then abortUnconfigured
  else if confirmed then
    writeOutcome (.deletePersonaById id) "Failed to delete persona: " gwError
  else ⟨[], [], false⟩

end PersonaManagerModal

/-- The gateway-state effect of a persona-step association write: insert
appends the pair, the match-delete removes every row matching both
columns, other writes leave the association table alone. -/
def applyPersonaWrite (assoc : List (String × String)) : GatewayWrite → List (String × String)
  | .insertPersonaStep pid sid => assoc ++ [(pid, sid)]
  | .deletePersonaStepMatch pid sid => assoc.filter (fun q => !(q.1 = pid && q.2 = sid))
  | _ => assoc

/-- One toggle call followed by applying its (successful) write to the
association table. -/
def toggleOnce (activeStepForPersona : Option JourneyStep) (stepId : String)
    (persona : DeveloperPersona) (assoc : List (String × String)) : List (String × String) :=
  (DeveloperJourney.togglePersonaForStep true activeStepForPersona stepId persona none).writes.foldl
    applyPersonaWrite assoc

/-! ## Journey data aggregation (fetchJourneyData, src/index.tsx lines
2332-2387) -/

/-- A raw step row as returned by the nested select: the child arrays
may be absent and each association row carries its joined persona,
which is null when that persona no longer exists. -/
structure RawStep where
  id : String
  stage_id : String
  user_action : String
  user_goal : String
  pain_points : Option (List PainPoint) := none
  touchpoints : Option (List MarketingTouchpoint) := none
  metrics : Option (List JourneyMetric) := none
  audits : Option (List JourneyAudit) := none
  persona_journey_steps : List (Option DeveloperPersona) := []
deriving DecidableEq

structure RawStage where
  id : String
  name : String
  stage_order : Int
  steps : List RawStep
deriving DecidableEq

/-- One gateway response: data and error, error implying absent data in
the supabase result contract. -/
structure FetchResult (α : Type) where
  data : Option α := none
  error : Option String := none
deriving DecidableEq

/-- The reshaping of one raw step (src/index.tsx lines 2374-2381):
association rows projected to their joined personas with null joins
dropped, and each missing child array defaulted to empty. -/
def processStep (s : RawStep) : JourneyStep :=
  { id := s.id
    stage_id := s.stage_id
    user_action := s.user_action
    user_goal := s.user_goal
    personas := s.persona_journey_steps.filterMap id
    pain_points := s.pain_points.getD []
    touchpoints := s.touchpoints.getD []
    metrics := s.metrics.getD []
    audits := s.audits.getD [] }

def processStages (stagesData : List RawStage) : List JourneyStage :=
  stagesData.map (fun stage =>
    { id := stage.id
      name := stage.name
      stage_order := stage.stage_order
      steps := stage.steps.map processStep })

structure AppJourneyState where
  journeyStages : List JourneyStage
  developerPersonas : List DeveloperPersona
  isLoading : Bool
deriving DecidableEq

/-- fetchJourneyData (src/index.tsx lines 2332-2387) as a state
transformer: given the configuration flag, the two awaited gateway
responses and the prior state, it returns the new state and the list of
logged error messages.  A collection is replaced only when its fetch
returned data; on error the setter is never called, so the prior value
stays. -/
def fetchJourneyData (configured : Bool)
    (personasRes : FetchResult (List DeveloperPersona))
    (stagesRes : FetchResult (List RawStage))
    (st : AppJourneyState) : AppJourneyState × List String :=
  let st1 := { st with isLoading := true }
  if !configured then
    ({ st1 with journeyStages := [], developerPersonas := [], isLoading := false },
     ["Supabase client not initialized because credentials are not provided."])
  else
    let log :=
      (match personasRes.error with
       | some e => ["Error fetching personas: " ++ e]
       | none => []) ++
      (match stagesRes.error with
       | some e => ["Error fetching journey stages: " ++ e]
       | none => [])
    let st2 := match personasRes.data with
      | some pd => { st1 with developerPersonas := pd }
      | none => st1
    let st3 := match stagesRes.data with
      | some sd => { st2 with journeyStages := processStages sd }
      | none => st2
    ({ st3 with isLoading := false }, log)

/-! ## Helper lemmas -/

/-- The quoted-and-doubled encoding of a field body parses back to the
original field, provided the input continues with anything but a double
quote (in an emitted record the continuation is a comma or the end). -/
theorem parseQuotedBody_esc (s rest : List Char) (h : rest.head? ≠ some '"') :
    parseQuotedBody (escChars s ++ '"' :: rest) = some (s, rest) := by
  induction s with
  | nil =>
    cases rest with
    | nil => rfl
    | cons r rs =>
      have hr : ¬ (r = '"') := by
        intro he
        rw [he] at h
        exact h rfl
      simp [escChars, parseQuotedBody, hr]
  | cons c cs ih =>
    by_cases hc : c = '"'
    · subst hc
      simp [escChars, parseQuotedBody, ih]
    · cases hals : escChars cs ++ '"' :: rest with
      | nil => simp at hals
      | cons a as =>
        simp only [escChars, if_neg hc, List.cons_append, parseQuotedBody, hals, if_neg hc]
        rw [← hals, ih]

/-- Parsing a record of quoted fields recovers the field list, for any
fuel of at least the number of fields. -/
theorem parseRecordAux_encode :
    ∀ (fs : List (List Char)) (n : Nat), fs.length ≤ n → fs ≠ [] →
      parseRecordAux n (encodeRow fs) = some fs := by
  intro fs
  induction fs with
  | nil => intro n _ hne; exact absurd rfl hne
  | cons f fs2 ih =>
    intro n hlen _
    cases fs2 with
    | nil =>
      cases n with
      | zero => simp at hlen
      | succ m =>
        have hq : parseQuotedBody (escChars f ++ '"' :: []) = some (f, []) :=
          parseQuotedBody_esc f [] (by simp)
        simp only [encodeRow, quoteField, parseRecordAux, parseField]
        simp [hq]
    | cons f2 fs3 =>
      cases n with
      | zero => simp at hlen
      | succ m =>
        have hq : parseQuotedBody (escChars f ++ '"' :: (',' :: encodeRow (f2 :: fs3)))
            = some (f, ',' :: encodeRow (f2 :: fs3)) :=
          parseQuotedBody_esc f (',' :: encodeRow (f2 :: fs3)) (by simp)
        have hrec : parseRecordAux m (encodeRow (f2 :: fs3)) = some (f2 :: fs3) := by
          apply ih
          · simpa using Nat.le_of_succ_le_succ hlen
          · simp
        simp only [encodeRow, quoteField]
        simp only [List.cons_append, List.append_assoc, List.singleton_append]
        simp only [parseRecordAux, parseField]
        simp [hq, hrec]

theorem encodeRow_length :
    ∀ fs : List (List Char), fs.length ≤ (encodeRow fs).length + 1 := by
  intro fs
  induction fs with
  | nil => simp [encodeRow]
  | cons f fs2 ih =>
    cases fs2 with
    | nil => simp [encodeRow, quoteField]
    | cons f2 fs3 =>
      simp only [encodeRow, quoteField] at ih ⊢
      simp only [List.length_cons, List.length_append]
      simp at ih ⊢
      omega

theorem parseRecord_encode (fs : List (List Char)) (hne : fs ≠ []) :
    parseRecord (encodeRow fs) = some fs :=
  parseRecordAux_encode fs ((encodeRow fs).length + 1) (encodeRow_length fs) hne

/-- Every string cell, the empty string included, is emitted quoted with
internal double quotes doubled. -/
theorem csvCell_str (s : String) : csvCell (.str s) = "\"" ++ escapeQuotes s ++ "\"" := by
  by_cases h : s = "" <;> simp [csvCell, jsOrEmpty, h]

/-- An absent cell is coerced to the empty string and emitted as a
quoted empty field. -/
theorem csvCell_undefined_quote : csvCell .undefined = "\"" ++ escapeQuotes "" ++ "\"" := rfl

/-- The data row emitted for one annotated pain point is the
comma-joined list of its four column values, each quoted and
quote-doubled (an absent severity becoming the empty field). -/
theorem ppDataRow_data (p : AnnotatedPainPoint) :
    (ppDataRow p).data =
      encodeRow [p.pp.description.data, (p.pp.severity.getD "").data,
                 p.stageName.data, p.stepAction.data] := by
  have hq : ("\"" : String).data = ['"'] := rfl
  have hcomma : ("," : String).data = [','] := rfl
  cases h : p.pp.severity with
  | none =>
    simp only [ppDataRow, painPointHeaders, List.map_cons, List.map_nil, joinStrings,
      ppRowLookup, reduceIte, h, csvCell_str, csvCell_undefined_quote, Option.getD_none]
    simp only [String.data_append, hq, hcomma, encodeRow, quoteField]
    simp [csvCell_str, csvCell_undefined_quote, escapeQuotes, String.data_append, hq,
      List.append_assoc, escChars]
  | some s =>
    simp only [ppDataRow, painPointHeaders, List.map_cons, List.map_nil, joinStrings,
      ppRowLookup, reduceIte, h, csvCell_str, Option.getD_some]
    simp only [String.data_append, hq, hcomma, encodeRow, quoteField]
    simp [csvCell_str, csvCell_undefined_quote, escapeQuotes, String.data_append, hq,
      List.append_assoc, escChars]

/-- The toggle write applied to the association table, as a function of
the membership test over the active popover step. -/
theorem toggleOnce_eq (t : JourneyStep) (stepId : String) (persona : DeveloperPersona)
    (assoc : List (String × String)) :
    toggleOnce (some t) stepId persona assoc =
      (if t.personas.any (fun p => p.id = persona.id) then
        assoc.filter (fun q => !(q.1 = persona.id && q.2 = stepId))
      else assoc ++ [(persona.id, stepId)]) := by
  unfold toggleOnce DeveloperJourney.togglePersonaForStep
  cases h : t.personas.any (fun p => p.id = persona.id) <;>
    simp [h, writeOutcome, applyPersonaWrite]

/-- The severity histogram fold, with an arbitrary accumulator. -/
theorem bySeverity_foldl (pps : List AnnotatedPainPoint) (acc : String → Nat) (k : String) :
    (pps.foldl (fun acc2 pp => fun k2 => if k2 = severityKey pp.pp then acc2 k2 + 1 else acc2 k2)
        acc) k
      = acc k + (pps.filter (fun a => severityKey a.pp = k)).length := by
  induction pps generalizing acc with
  | nil => simp
  | cons a l ih =>
    simp only [List.foldl_cons, ih, List.filter_cons]
    by_cases h : severityKey a.pp = k
    · simp [h, if_pos h.symm]
      omega
    · have h2 : ¬ (k = severityKey a.pp) := fun he => h he.symm
      simp [h, if_neg h2]

theorem bySeverity_eq_filter (pps : List AnnotatedPainPoint) (k : String) :
    painPointSummaryBySeverity pps k = (pps.filter (fun a => severityKey a.pp = k)).length := by
  rw [painPointSummaryBySeverity, bySeverity_foldl]
  omega

theorem filter_length_eq_count (pps : List AnnotatedPainPoint) (k : String) :
    (pps.filter (fun a => severityKey a.pp = k)).length
      = (pps.map (fun a => severityKey a.pp)).count k := by
  induction pps with
  | nil => simp
  | cons a l ih =>
    simp only [List.filter_cons, List.map_cons, List.count_cons]
    by_cases h : severityKey a.pp = k <;> simp [h, ih]

/-! ## Claims -/

/-- C10: for a CFP whose submission_deadline is the empty string the
deadline classifier returns the text N/A (for every current date, in
particular independently of any parsing or day-difference result). -/
theorem getDeadlineInfo_empty_na (todayMs : Int) :
    getDeadlineInfo todayMs "" = { text := "N/A", className := "text-muted-foreground" } := rfl

/-- C2: with the gateway unconfigured (supabase = false), every journey
mutation operation returns the user-visible message, performs no
gateway write and triggers no refetch; since the in-memory stage tree
and persona list are only replaced by the refetch, both are left
unchanged. -/
theorem mutations_unconfigured_abort :
    (∀ editing editValue gwError,
      DeveloperJourney.handleSave false editing editValue gwError = abortUnconfigured) ∧
    (∀ n g, DeveloperJourney.addStage false n g = abortUnconfigured) ∧
    (∀ c sid g, DeveloperJourney.deleteStage false c sid g = abortUnconfigured) ∧
    (∀ sid g, DeveloperJourney.addStep false sid g = abortUnconfigured) ∧
    (∀ c sid g, DeveloperJourney.deleteStep false c sid g = abortUnconfigured) ∧
    (∀ d g, DeveloperJourney.handleSavePainPoint false d g = abortUnconfigured) ∧
    (∀ i g, DeveloperJourney.handleDeletePainPoint false i g = abortUnconfigured) ∧
    (∀ d g, DeveloperJourney.handleSaveTouchpoint false d g = abortUnconfigured) ∧
    (∀ i g, DeveloperJourney.handleDeleteTouchpoint false i g = abortUnconfigured) ∧
    (∀ d g, DeveloperJourney.handleSaveMetric false d g = abortUnconfigured) ∧
    (∀ i g, DeveloperJourney.handleDeleteMetric false i g = abortUnconfigured) ∧
    (∀ a sid p g, DeveloperJourney.togglePersonaForStep false a sid p g = abortUnconfigured) ∧
    (∀ d g, PersonaManagerModal.handleSave false d g = abortUnconfigured) ∧
    (∀ c i g, PersonaManagerModal.handleDelete false c i g = abortUnconfigured) ∧
    abortUnconfigured = ⟨[notConfiguredMsg], [], false⟩ :=
  ⟨fun _ _ _ => rfl, fun _ _ => rfl, fun _ _ _ => rfl, fun _ _ => rfl, fun _ _ _ => rfl,
   fun _ _ => rfl, fun _ _ => rfl, fun _ _ => rfl, fun _ _ => rfl, fun _ _ => rfl,
   fun _ _ => rfl, fun _ _ _ _ => rfl, fun _ _ => rfl, fun _ _ _ => rfl, rfl⟩

/-- C3 counterexample: with the current date 2026-10-11 (taken at UTC
midnight) and the deadline on the same day, the classifier returns the
text Due Today with a trailing exclamation mark, so it does not return
the exact label the claim states for a zero day difference. -/
theorem getDeadlineInfo_dueToday_exclamation :
    (getDeadlineInfo (dateUTC 2026 9 11) "2026-10-11").text = "Due Today!" ∧
    (getDeadlineInfo (dateUTC 2026 9 11) "2026-10-11").text ≠ "Due Today" := by
  constructor <;> decide

/-- C3 amended: for every current timestamp and every deadline string
that parses to a calendar date, the classifier computes the ceiling day
difference between the UTC-parsed deadline and the current timestamp
and returns Overdue when it is negative, the label Due Today! when it
is zero, the relative In-N-days label for 1..7, and the formatted
absolute date otherwise (in particular for a 30-day difference). -/
theorem getDeadlineInfo_classification (todayMs : Int) (s : String) (y m d : Int)
    (hp : parseDateParts s = some (y, m, d)) :
    (ceilDivInt (dateUTC y (m - 1) d - todayMs) msPerDay < 0 →
        getDeadlineInfo todayMs s = ⟨"Overdue", "text-red-500 font-medium"⟩) ∧
    (ceilDivInt (dateUTC y (m - 1) d - todayMs) msPerDay = 0 →
        getDeadlineInfo todayMs s = ⟨"Due Today!", "text-orange-500 font-bold"⟩) ∧
    (∀ k : Int, 1 ≤ k → k ≤ 7 → ceilDivInt (dateUTC y (m - 1) d - todayMs) msPerDay = k →
        getDeadlineInfo todayMs s =
          ⟨"In " ++ toString k ++ " day" ++ (if k > 1 then "s" else ""),
           "text-amber-500 font-medium"⟩) ∧
    (7 < ceilDivInt (dateUTC y (m - 1) d - todayMs) msPerDay →
        getDeadlineInfo todayMs s = ⟨formatDateUTC (dateUTC y (m - 1) d), "text-muted-foreground"⟩) := by
  have hs : ¬ (s = "") := by
    intro h
    rw [h] at hp
    exact Option.noConfusion hp
  unfold getDeadlineInfo
  rw [if_neg hs, hp]
  dsimp only
  refine ⟨?_, ?_, ?_, ?_⟩
  · intro h
    rw [if_pos h]
  · intro h
    rw [if_neg (show ¬ ceilDivInt (dateUTC y (m - 1) d - todayMs) msPerDay < 0 by omega),
        if_pos h]
  · intro k h1 h7 hk
    rw [hk, if_neg (show ¬ (k < 0) by omega), if_neg (show ¬ (k = 0) by omega),
        if_pos (show k ≤ 7 by omega)]
  · intro h
    rw [if_neg (show ¬ ceilDivInt (dateUTC y (m - 1) d - todayMs) msPerDay < 0 by omega),
        if_neg (show ¬ ceilDivInt (dateUTC y (m - 1) d - todayMs) msPerDay = 0 by omega),
        if_neg (show ¬ ceilDivInt (dateUTC y (m - 1) d - todayMs) msPerDay ≤ 7 by omega)]

/-- C3 witness: the current date 2026-10-11 at UTC midnight with the
deadline 2026-10-16 falls in the 1..7 bucket and yields In 5 days. -/
theorem getDeadlineInfo_classification_witness :
    parseDateParts "2026-10-16" = some (2026, 10, 16) ∧
    getDeadlineInfo (dateUTC 2026 9 11) "2026-10-16" =
      ⟨"In 5 days", "text-amber-500 font-medium"⟩ := by
  refine ⟨by decide, ?_⟩
  have h := (getDeadlineInfo_classification (dateUTC 2026 9 11) "2026-10-16" 2026 10 16
    (by decide)).2.2.1 5 (by decide) (by decide) (by decide)
  exact h.trans (by decide)

/-- C4: for every annotated pain point whose description contains a
double quote and a comma, parsing the exported data row with a standard
CSV parser reconstructs all four column values exactly, the description
in particular. -/
theorem csv_painPoint_roundtrip (p : AnnotatedPainPoint)
    (hq : '"' ∈ p.pp.description.data) (hc : ',' ∈ p.pp.description.data) :
    parseRecord (ppDataRow p).data =
      some [p.pp.description.data, (p.pp.severity.getD "").data,
            p.stageName.data, p.stepAction.data] := by
  rw [ppDataRow_data]
  exact parseRecord_encode _ (by simp)

/-- C4 witness: a concrete pain point whose description holds both a
double quote and a comma round-trips through the exported row. -/
theorem csv_painPoint_roundtrip_witness :
    ('"' ∈ ("He said \"hi\", twice" : String).data) ∧
    (',' ∈ ("He said \"hi\", twice" : String).data) ∧
    parseRecord (ppDataRow
        ⟨{ id := "pp-1", step_id := "step-1", description := "He said \"hi\", twice",
           severity := some "high" }, "Sign up", "Awareness"⟩).data =
      some [("He said \"hi\", twice" : String).data, ("high" : String).data,
            ("Awareness" : String).data, ("Sign up" : String).data] :=
  ⟨by decide, by decide,
   csv_painPoint_roundtrip
     ⟨{ id := "pp-1", step_id := "step-1", description := "He said \"hi\", twice",
        severity := some "high" }, "Sign up", "Awareness"⟩
     (by decide) (by decide)⟩

/-- C5 counterexample: an absent cell value is not emitted as an
unquoted blank; both an absent value and the number 0 are coerced by
the falsy-defaulting step to the empty string and emitted as a quoted
empty field of two double-quote characters. -/
theorem csvCell_absent_quoted_counterexample :
    csvCell JSVal.undefined = "\"\"" ∧
    csvCell JSVal.undefined ≠ "" ∧
    csvCell (JSVal.num 0) = "\"\"" ∧
    csvCell (JSVal.num 0) ≠ "0" := by
  refine ⟨by decide, by decide, by decide, by decide⟩

/-- C5 amended: the CSV export emits the header row as the column
labels joined by commas and each data row as the cell values joined by
commas, where a nonzero numeric value is emitted unquoted, an absent
value and the number 0 are emitted as the quoted empty field, and every
string value is wrapped in double quotes with internal double quotes
doubled. -/
theorem convertToCSV_cell_shapes (data : List (String → JSVal)) (headers : List CSVHeader) :
    (convertToCSV data headers =
      joinStrings "\n" (joinStrings "," (headers.map (fun h => h.label)) ::
        data.map (fun row => joinStrings "," (headers.map (fun h => csvCell (row h.key)))))) ∧
    (∀ n : Int, ¬ n = 0 → csvCell (.num n) = toString n) ∧
    csvCell (.num 0) = "\"\"" ∧
    csvCell .undefined = "\"\"" ∧
    (∀ s : String, csvCell (.str s) = "\"" ++ escapeQuotes s ++ "\"") :=
  ⟨rfl, fun n h => by simp [csvCell, jsOrEmpty, h], by decide, by decide, csvCell_str⟩

/-- C5 witness: the nonzero number 7 is emitted unquoted as 7. -/
theorem convertToCSV_cell_shapes_witness :
    ¬ (7 : Int) = 0 ∧ csvCell (.num 7) = "7" :=
  ⟨by decide, ((convertToCSV_cell_shapes [] []).2.1 7 (by decide)).trans (by decide)⟩

/-- C1 counterexample: a concrete state in which the association
(persona-1, step-1) exists in the aggregated tree (the persona is in
the persona list of step-1) but the popover state activeStepForPersona
is null - the chip close button scenario - where the toggle takes the
insert branch instead of the delete the claim requires. -/
theorem togglePersona_chipClose_inserts_existing :
    (({ id := "persona-1", name := "P" } : DeveloperPersona) ∈
      ({ id := "step-1", stage_id := "stage-1", user_action := "a", user_goal := "g",
         personas := [{ id := "persona-1", name := "P" }], pain_points := [],
         touchpoints := [], metrics := [] } : JourneyStep).personas) ∧
    (DeveloperJourney.togglePersonaForStep true none "step-1"
        { id := "persona-1", name := "P" } none).writes =
      [GatewayWrite.insertPersonaStep "persona-1" "step-1"] ∧
    (DeveloperJourney.togglePersonaForStep true none "step-1"
        { id := "persona-1", name := "P" } none).writes ≠
      [GatewayWrite.deletePersonaStepMatch "persona-1" "step-1"] :=
  ⟨by decide, by decide, by decide⟩

/-- C1 amended: the toggle decides delete-versus-insert from the
persona list of the popover state activeStepForPersona, not from the
step named by stepId.  When before each call the active step reflects
the association table for this persona and step (as the popover flow
intends), the toggle deletes the pair when present and inserts it
otherwise, and toggling twice returns the association set of the step
to its original membership. -/
theorem togglePersona_active_roundtrip (assoc : List (String × String)) (stepId : String)
    (persona : DeveloperPersona) (t1 t2 : JourneyStep)
    (h1 : (t1.personas.any (fun p => p.id = persona.id) = true) ↔ (persona.id, stepId) ∈ assoc)
    (h2 : (t2.personas.any (fun p => p.id = persona.id) = true) ↔
      (persona.id, stepId) ∈ toggleOnce (some t1) stepId persona assoc) :
    (toggleOnce (some t2) stepId persona (toggleOnce (some t1) stepId persona assoc)).toFinset
      = assoc.toFinset := by
  by_cases hm : (persona.id, stepId) ∈ assoc
  · have ha1 : t1.personas.any (fun p => p.id = persona.id) = true := h1.mpr hm
    rw [toggleOnce_eq t1 stepId persona assoc, if_pos ha1] at h2 ⊢
    have hnotmem : (persona.id, stepId) ∉
        assoc.filter (fun q => !(q.1 = persona.id && q.2 = stepId)) := by
      simp
    have ha2 : t2.personas.any (fun p => p.id = persona.id) = false := by
      cases hb : t2.personas.any (fun p => p.id = persona.id)
      · rfl
      · exact absurd (h2.mp hb) hnotmem
    rw [toggleOnce_eq t2, if_neg (by simp only [ha2]; decide)]
    ext x
    simp only [List.mem_toFinset, List.mem_append, List.mem_filter, List.mem_singleton]
    constructor
    · rintro (⟨hx, _⟩ | rfl)
      · exact hx
      · exact hm
    · intro hx
      by_cases hxp : x = (persona.id, stepId)
      · exact Or.inr hxp
      · refine Or.inl ⟨hx, ?_⟩
        simp only [Bool.not_eq_true', Bool.and_eq_false_iff, decide_eq_false_iff_not]
        by_contra hcon
        push_neg at hcon
        apply hxp
        obtain ⟨c1, c2⟩ := hcon
        exact Prod.ext (by simpa using c1) (by simpa using c2)
  · have ha1 : t1.personas.any (fun p => p.id = persona.id) = false := by
      cases hb : t1.personas.any (fun p => p.id = persona.id)
      · rfl
      · exact absurd (h1.mp hb) hm
    rw [toggleOnce_eq t1 stepId persona assoc,
        if_neg (by simp only [ha1]; decide)] at h2 ⊢
    have ha2 : t2.personas.any (fun p => p.id = persona.id) = true := by
      apply h2.mpr
      simp
    rw [toggleOnce_eq t2, if_pos ha2]
    ext x
    simp only [List.mem_toFinset, List.mem_filter, List.mem_append, List.mem_singleton]
    constructor
    · rintro ⟨hx | rfl, hp⟩
      · exact hx
      · simp at hp
    · intro hx
      refine ⟨Or.inl hx, ?_⟩
      simp only [Bool.not_eq_true', Bool.and_eq_false_iff, decide_eq_false_iff_not]
      by_contra hcon
      push_neg at hcon
      obtain ⟨c1, c2⟩ := hcon
      have hx2 : x = (persona.id, stepId) := Prod.ext (by simpa using c1) (by simpa using c2)
      rw [hx2] at hx
      exact hm hx

/-- C1 witness: a concrete association table holding exactly the pair
(p1, s1), a first active step reflecting it and a refreshed second
active step reflecting the table after the delete; toggling twice
restores the original association set. -/
theorem togglePersona_active_roundtrip_witness :
    ((({ id := "s1", stage_id := "st", user_action := "a", user_goal := "g",
         personas := [{ id := "p1", name := "P" }], pain_points := [], touchpoints := [],
         metrics := [] } : JourneyStep).personas.any
        (fun p => p.id = ({ id := "p1", name := "P" } : DeveloperPersona).id) = true) ↔
      (("p1", "s1") ∈ ([("p1", "s1")] : List (String × String)))) ∧
    ((({ id := "s1", stage_id := "st", user_action := "a", user_goal := "g",
         personas := [], pain_points := [], touchpoints := [],
         metrics := [] } : JourneyStep).personas.any
        (fun p => p.id = ({ id := "p1", name := "P" } : DeveloperPersona).id) = true) ↔
      (("p1", "s1") ∈ toggleOnce
        (some { id := "s1", stage_id := "st", user_action := "a", user_goal := "g",
                personas := [{ id := "p1", name := "P" }], pain_points := [], touchpoints := [],
                metrics := [] }) "s1" { id := "p1", name := "P" } [("p1", "s1")])) ∧
    (toggleOnce
        (some { id := "s1", stage_id := "st", user_action := "a", user_goal := "g",
                personas := [], pain_points := [], touchpoints := [], metrics := [] })
        "s1" { id := "p1", name := "P" }
        (toggleOnce
          (some { id := "s1", stage_id := "st", user_action := "a", user_goal := "g",
                  personas := [{ id := "p1", name := "P" }], pain_points := [], touchpoints := [],
                  metrics := [] }) "s1" { id := "p1", name := "P" } [("p1", "s1")])).toFinset
      = ([("p1", "s1")] : List (String × String)).toFinset :=
  ⟨by decide, by decide,
   togglePersona_active_roundtrip [("p1", "s1")] "s1" { id := "p1", name := "P" }
     { id := "s1", stage_id := "st", user_action := "a", user_goal := "g",
       personas := [{ id := "p1", name := "P" }], pain_points := [], touchpoints := [],
       metrics := [] }
     { id := "s1", stage_id := "st", user_action := "a", user_goal := "g",
       personas := [], pain_points := [], touchpoints := [], metrics := [] }
     (by decide) (by decide)⟩

/-- C9 counterexample: when the popover state holds a step different
from stepId whose persona list does contain the persona, the toggle
takes the delete branch, not the insert branch the claim asserts for
every call with a differing active step. -/
theorem togglePersona_differentStep_deletes :
    (({ id := "step-2", stage_id := "stage-1", user_action := "a", user_goal := "g",
        personas := [{ id := "persona-1", name := "P" }], pain_points := [],
        touchpoints := [], metrics := [] } : JourneyStep).id ≠ "step-1") ∧
    (DeveloperJourney.togglePersonaForStep true
        (some { id := "step-2", stage_id := "stage-1", user_action := "a", user_goal := "g",
                personas := [{ id := "persona-1", name := "P" }], pain_points := [],
                touchpoints := [], metrics := [] })
        "step-1" { id := "persona-1", name := "P" } none).writes =
      [GatewayWrite.deletePersonaStepMatch "persona-1" "step-1"] ∧
    (DeveloperJourney.togglePersonaForStep true
        (some { id := "step-2", stage_id := "stage-1", user_action := "a", user_goal := "g",
                personas := [{ id := "persona-1", name := "P" }], pain_points := [],
                touchpoints := [], metrics := [] })
        "step-1" { id := "persona-1", name := "P" } none).writes ≠
      [GatewayWrite.insertPersonaStep "persona-1" "step-1"] :=
  ⟨by decide, by decide, by decide⟩

/-- C9 amended: the insert-versus-delete decision is taken from the
persona list of activeStepForPersona and from nothing else: with a null
active step, or an active step whose persona list lacks the persona,
the insert branch runs and the pair (persona.id, stepId) is inserted
regardless of any existing association for stepId (the chip close
scenario); with an active step whose persona list contains the persona,
the delete branch runs, even when that step differs from stepId. -/
theorem togglePersona_branch_decision (stepId : String) (persona : DeveloperPersona)
    (gwError : Option String) :
    ((DeveloperJourney.togglePersonaForStep true none stepId persona gwError).writes =
        [GatewayWrite.insertPersonaStep persona.id stepId]) ∧
    (∀ t : JourneyStep, t.personas.any (fun p => p.id = persona.id) = false →
      (DeveloperJourney.togglePersonaForStep true (some t) stepId persona gwError).writes =
        [GatewayWrite.insertPersonaStep persona.id stepId]) ∧
    (∀ t : JourneyStep, t.personas.any (fun p => p.id = persona.id) = true →
      (DeveloperJourney.togglePersonaForStep true (some t) stepId persona gwError).writes =
        [GatewayWrite.deletePersonaStepMatch persona.id stepId]) := by
  refine ⟨?_, ?_, ?_⟩
  · cases gwError <;> simp [DeveloperJourney.togglePersonaForStep, writeOutcome]
  · intro t ht
    cases gwError <;> simp [DeveloperJourney.togglePersonaForStep, writeOutcome, ht]
  · intro t ht
    cases gwError <;> simp [DeveloperJourney.togglePersonaForStep, writeOutcome, ht]

/-- C9 witness: a concrete active step containing the persona makes the
call with a different stepId take the delete branch. -/
theorem togglePersona_branch_decision_witness :
    (({ id := "s9", stage_id := "st", user_action := "a", user_goal := "g",
        personas := [{ id := "p9", name := "P" }], pain_points := [], touchpoints := [],
        metrics := [] } : JourneyStep).personas.any
      (fun p => p.id = ({ id := "p9", name := "P" } : DeveloperPersona).id) = true) ∧
    (DeveloperJourney.togglePersonaForStep true
        (some { id := "s9", stage_id := "st", user_action := "a", user_goal := "g",
                personas := [{ id := "p9", name := "P" }], pain_points := [], touchpoints := [],
                metrics := [] })
        "other-step" { id := "p9", name := "P" } none).writes =
      [GatewayWrite.deletePersonaStepMatch "p9" "other-step"] :=
  ⟨by decide,
   (togglePersona_branch_decision "other-step" { id := "p9", name := "P" } none).2.2
     { id := "s9", stage_id := "st", user_action := "a", user_goal := "g",
       personas := [{ id := "p9", name := "P" }], pain_points := [], touchpoints := [],
       metrics := [] } (by decide)⟩

/-- C6: the persona summary reports per stage the number of distinct
personas across all its steps - the distinct count of the flattened
persona id list - and a stage with two steps sharing one common persona
where each step has one further distinct persona counts 3. -/
theorem personaSummary_distinct_count (stages : List JourneyStage) :
    (personaSummary stages = stages.map (fun st =>
      ⟨st.name,
       (st.steps.flatMap (fun step => step.personas.map (fun p => p.id))).toFinset.card⟩)) ∧
    (∀ st : JourneyStage, ∀ ia ib ic : String,
      st.steps.flatMap (fun step => step.personas.map (fun p => p.id)) = [ia, ib, ia, ic] →
      ia ≠ ib → ia ≠ ic → ib ≠ ic →
      personaSummary [st] = [⟨st.name, 3⟩]) := by
  constructor
  · simp [personaSummary, List.card_toFinset]
  · intro st ia ib ic h hab hac hbc
    simp only [personaSummary, List.map_cons, List.map_nil, h]
    rw [List.dedup_cons_of_mem (by simp),
        List.dedup_cons_of_not_mem (by simp [hab.symm, hbc]),
        List.dedup_cons_of_not_mem (by simp [hac]),
        List.dedup_cons_of_not_mem (by simp)]
    rfl

/-- C6 witness: a concrete stage with two steps, persona pa on both and
pb, pc on one each, whose summary counts 3 distinct personas. -/
theorem personaSummary_distinct_count_witness :
    (({ id := "stage-1", name := "Awareness", stage_order := 1,
        steps :=
          [{ id := "s1", stage_id := "stage-1", user_action := "a1", user_goal := "g1",
             personas := [{ id := "pa", name := "A" }, { id := "pb", name := "B" }],
             pain_points := [], touchpoints := [], metrics := [] },
           { id := "s2", stage_id := "stage-1", user_action := "a2", user_goal := "g2",
             personas := [{ id := "pa", name := "A" }, { id := "pc", name := "C" }],
             pain_points := [], touchpoints := [], metrics := [] }] } : JourneyStage).steps.flatMap
        (fun step => step.personas.map (fun p => p.id)) = ["pa", "pb", "pa", "pc"]) ∧
    personaSummary
      [{ id := "stage-1", name := "Awareness", stage_order := 1,
         steps :=
           [{ id := "s1", stage_id := "stage-1", user_action := "a1", user_goal := "g1",
              personas := [{ id := "pa", name := "A" }, { id := "pb", name := "B" }],
              pain_points := [], touchpoints := [], metrics := [] },
            { id := "s2", stage_id := "stage-1", user_action := "a2", user_goal := "g2",
              personas := [{ id := "pa", name := "A" }, { id := "pc", name := "C" }],
              pain_points := [], touchpoints := [], metrics := [] }] }] = [⟨"Awareness", 3⟩] :=
  ⟨by decide,
   (personaSummary_distinct_count []).2
     { id := "stage-1", name := "Awareness", stage_order := 1,
       steps :=
         [{ id := "s1", stage_id := "stage-1", user_action := "a1", user_goal := "g1",
            personas := [{ id := "pa", name := "A" }, { id := "pb", name := "B" }],
            pain_points := [], touchpoints := [], metrics := [] },
          { id := "s2", stage_id := "stage-1", user_action := "a2", user_goal := "g2",
            personas := [{ id := "pa", name := "A" }, { id := "pc", name := "C" }],
            pain_points := [], touchpoints := [], metrics := [] }] }
     "pa" "pb" "pc" (by decide) (by decide) (by decide) (by decide)⟩

/-- C7: the pain point summary flattens exactly the pain points in
scope, annotating each with its parent step user_action and stage name;
the severity histogram counts each key by the pain points whose
grouping key it is, a missing severity grouping under the none bucket;
and the bucket counts over the occurring keys sum to the total. -/
theorem painPointSummary_flatten_histogram (stages : List JourneyStage) :
    (∀ a : AnnotatedPainPoint, a ∈ collectPainPoints stages ↔
      ∃ stage, stage ∈ stages ∧ ∃ step, step ∈ stage.steps ∧ ∃ pp, pp ∈ step.pain_points ∧
        a = ⟨pp, step.user_action, stage.name⟩) ∧
    (∀ k, painPointSummaryBySeverity (collectPainPoints stages) k =
      ((collectPainPoints stages).filter (fun a => severityKey a.pp = k)).length) ∧
    (∀ i sid ds, severityKey { id := i, step_id := sid, description := ds, severity := none }
      = "none") ∧
    (∑ k in (((collectPainPoints stages).map (fun a => severityKey a.pp)).toFinset),
        painPointSummaryBySeverity (collectPainPoints stages) k
      = painPointSummaryTotal (collectPainPoints stages)) := by
  refine ⟨?_, fun k => bySeverity_eq_filter _ k, fun _ _ _ => rfl, ?_⟩
  · intro a
    simp only [collectPainPoints, List.mem_flatMap, List.mem_map]
    constructor
    · rintro ⟨x, ⟨stage, hstage, step, hstep, rfl⟩, pp, hpp, rfl⟩
      exact ⟨stage, hstage, step, hstep, pp, hpp, rfl⟩
    · rintro ⟨stage, hstage, step, hstep, pp, hpp, rfl⟩
      exact ⟨(step, stage.name), ⟨stage, hstage, step, hstep, rfl⟩, pp, hpp, rfl⟩
  · have h1 : ∀ k, painPointSummaryBySeverity (collectPainPoints stages) k
        = ((collectPainPoints stages).map (fun a => severityKey a.pp)).count k := by
      intro k
      rw [bySeverity_eq_filter, filter_length_eq_count]
    calc ∑ k in (((collectPainPoints stages).map (fun a => severityKey a.pp)).toFinset),
          painPointSummaryBySeverity (collectPainPoints stages) k
        = ∑ k in (((collectPainPoints stages).map (fun a => severityKey a.pp)).toFinset),
          ((collectPainPoints stages).map (fun a => severityKey a.pp)).count k :=
            Finset.sum_congr rfl (fun k _ => h1 k)
      _ = ((collectPainPoints stages).map (fun a => severityKey a.pp)).length :=
            List.sum_toFinset_count_eq_length _
      _ = (collectPainPoints stages).length := List.length_map _ _
      _ = painPointSummaryTotal (collectPainPoints stages) := rfl

/-- C8 counterexample: after a successful earlier load (prior persona
list nonempty), a failed persona fetch leaves the prior, nonempty
persona list in place: the collection is left stale, not empty. -/
theorem fetch_error_leaves_prior_not_empty :
    (fetchJourneyData true { data := none, error := some "network failure" }
        { data := some [], error := none }
        { journeyStages := [],
          developerPersonas := [{ id := "p1", name := "Ada" }],
          isLoading := false }).1.developerPersonas = [{ id := "p1", name := "Ada" }] ∧
    ([{ id := "p1", name := "Ada" }] : List DeveloperPersona) ≠ [] :=
  ⟨rfl, by decide⟩

/-- C8 amended: if either fetch returns an error (and hence no data),
the error is logged, the corresponding collection is left unchanged -
thus empty only when it was empty before, as on first load - the other
collection is still processed from its own data, and the loading flag
ends false; the transformer is total, so no error propagates. -/
theorem fetchJourneyData_error_independence
    (personasRes : FetchResult (List DeveloperPersona)) (stagesRes : FetchResult (List RawStage))
    (st : AppJourneyState) (e : String) :
    (personasRes.error = some e → personasRes.data = none →
      (fetchJourneyData true personasRes stagesRes st).1.developerPersonas
        = st.developerPersonas ∧
      ("Error fetching personas: " ++ e) ∈ (fetchJourneyData true personasRes stagesRes st).2 ∧
      (∀ sd, stagesRes.data = some sd →
        (fetchJourneyData true personasRes stagesRes st).1.journeyStages = processStages sd) ∧
      (fetchJourneyData true personasRes stagesRes st).1.isLoading = false) ∧
    (stagesRes.error = some e → stagesRes.data = none →
      (fetchJourneyData true personasRes stagesRes st).1.journeyStages = st.journeyStages ∧
      ("Error fetching journey stages: " ++ e)
        ∈ (fetchJourneyData true personasRes stagesRes st).2 ∧
      (∀ pd, personasRes.data = some pd →
        (fetchJourneyData true personasRes stagesRes st).1.developerPersonas = pd) ∧
      (fetchJourneyData true personasRes stagesRes st).1.isLoading = false) := by
  obtain ⟨pd, pe⟩ := personasRes
  obtain ⟨sd, se⟩ := stagesRes
  constructor
  · rintro rfl rfl
    cases sd with
    | none => simp [fetchJourneyData]
    | some s => simp [fetchJourneyData]
  · rintro rfl rfl
    cases pd with
    | none => simp [fetchJourneyData]
    | some p =>
      cases pe with
      | none => simp [fetchJourneyData]
      | some x => simp [fetchJourneyData]

/-- C8 witness: a concrete failed persona fetch beside a successful
stage fetch keeps the prior persona list, logs the message, processes
the stages and clears the loading flag. -/
theorem fetchJourneyData_error_independence_witness :
    (fetchJourneyData true { data := none, error := some "boom" }
        { data := some [{ id := "st1", name := "S", stage_order := 1, steps := [] }],
          error := none }
        { journeyStages := [], developerPersonas := [{ id := "p1", name := "Ada" }],
          isLoading := false }).1.developerPersonas = [{ id := "p1", name := "Ada" }] ∧
    ("Error fetching personas: " ++ "boom")
      ∈ (fetchJourneyData true { data := none, error := some "boom" }
        { data := some [{ id := "st1", name := "S", stage_order := 1, steps := [] }],
          error := none }
        { journeyStages := [], developerPersonas := [{ id := "p1", name := "Ada" }],
          isLoading := false }).2 ∧
    (fetchJourneyData true { data := none, error := some "boom" }
        { data := some [{ id := "st1", name := "S", stage_order := 1, steps := [] }],
          error := none }
        { journeyStages := [], developerPersonas := [{ id := "p1", name := "Ada" }],
          isLoading := false }).1.isLoading = false := by
  have h := (fetchJourneyData_error_independence
    { data := none, error := some "boom" }
    { data := some [{ id := "st1", name := "S", stage_order := 1, steps := [] }], error := none }
    { journeyStages := [], developerPersonas := [{ id := "p1", name := "Ada" }],
      isLoading := false } "boom").1 rfl rfl
  exact ⟨h.1, h.2.1, h.2.2.2⟩

end Mcc
